import Mathlib

/-!
Verification of the kunbez clinical-eligibility engine.

Shallow embedding of:
  * the legacy `EligibilityAgent` and the enhanced `EligibilityAgentV2`
    (src/agents/eligibilityAgent.ts),
  * the criterion catalog `CRITERION_CATALOG` with its regex extractors and
    evaluators, and `getHighestPriorityUnknown` (clinical catalog module),
  * the corpus-analysis functions of `PatternMiningEngine`
    (pattern mining module).

JS numbers are modelled as `ℚ` (with a dedicated `JSNum` type where the
source can produce `NaN`/`Infinity` by dividing by zero); optional fields
are `Option`; JS truthiness of the relevant values is modelled explicitly.
Strings are Lean `String`s; `toLowerCase` is modelled on the ASCII range
(the only characters the embedded texts exercise; the non-ASCII letters
appearing in the source literals, such as ï, are already lower case).
-/

namespace Kunbez

/-- Tri-state clinical answer: the TS union `'yes' | 'no' | 'unknown'`. -/
inductive TriState where
  | yes
  | no
  | unknown
deriving DecidableEq, Repr

/-- Eligibility band: the TS union `'High' | 'Medium' | 'Low'`. -/
inductive Band where
  | High
  | Medium
  | Low
deriving DecidableEq, Repr

/-- Numeric height of a band, for the ordering Low < Medium < High. -/
def Band.toNat : Band → Nat
  | .Low => 0
  | .Medium => 1
  | .High => 2

/-- `a` is at most `b` in the Low < Medium < High order. -/
def bandLe (a b : Band) : Prop := a.toNat ≤ b.toNat

instance (a b : Band) : Decidable (bandLe a b) := by
  unfold bandLe; infer_instance

/-- `a` is strictly below `b` in the Low < Medium < High order. -/
def bandLt (a b : Band) : Prop := a.toNat < b.toNat

instance (a b : Band) : Decidable (bandLt a b) := by
  unfold bandLt; infer_instance

/-- ASCII lower-casing of a string, modelling `String.prototype.toLowerCase`
on the character range the repository's texts use. -/
def jsToLower (s : String) : String := ⟨s.data.map Char.toLower⟩

/-- Substring containment, modelling `String.prototype.includes`. -/
def strIncludes (hay needle : String) : Bool :=
  (List.range (hay.data.length + 1)).any
    (fun i => needle.data.isPrefixOf (hay.data.drop i))

/-- JS truthiness of an optional string (`undefined` and `""` are falsy). -/
def jsTruthyStr : Option String → Bool
  | none => false
  | some s => !(s.data.isEmpty)

/-- `PatientInput` from src/agents/eligibilityAgent.ts. -/
structure PatientInput where
  ageYears : Option ℚ
  genotypeKnown : Option TriState
  priorTherapy : Option TriState
deriving DecidableEq, Repr

/-- `Trial` from the trials library module. -/
structure Trial where
  nctId : String
  title : String
  phase : Option String
  locations : List String
  eligibilityText : Option String
  minAgeYears : Option ℚ
  maxAgeYears : Option ℚ
  status : Option String
deriving DecidableEq, Repr

/-- `EligibilityDecision` from src/agents/eligibilityAgent.ts. -/
structure EligibilityDecision where
  band : Band
  reasons : List String
  uncertainties : List String
  followUpQuestion : Option String
deriving DecidableEq, Repr

/-- The mutable local state of one `EligibilityAgent` run: the `band`,
`reasons`, `uncertainties` and `followUpQuestion` locals of the source. -/
structure AgentState where
  band : Band
  reasons : List String
  uncertainties : List String
  followUpQuestion : Option String
deriving DecidableEq, Repr

/-- Initial state of the legacy agent (`band = "Medium"`, empty lists). -/
def initialState : AgentState := ⟨.Medium, [], [], none⟩

/-- The lowercased eligibility text:
`trial.eligibilityText?.toLowerCase() || ""`. -/
def eligText (t : Trial) : String := jsToLower (t.eligibilityText.getD "")

/-- Age block of the legacy agent (eligibilityAgent.ts lines 30-47). -/
def stepAge (p : PatientInput) (t : Trial) (s : AgentState) : AgentState :=
  match t.minAgeYears, t.maxAgeYears, p.ageYears with
  | some lo, some hi, some age =>
    if lo ≤ age ∧ age ≤ hi then
      { s with reasons := s.reasons ++ ["Age within eligibility range"], band := .High }
    else
      { s with uncertainties := s.uncertainties ++ ["Age outside stated range"], band := .Low }
  | _, _, _ =>
    -- else-if branch: age present and at least one bound present
    match p.ageYears, t.minAgeYears, t.maxAgeYears with
    | some age, some lo, mx =>
      if lo ≤ age then
        { s with reasons := s.reasons ++ ["Age meets minimum requirement"] }
      else
        match mx with
        | some hi =>
          if age ≤ hi then
            { s with reasons := s.reasons ++ ["Age meets maximum requirement"] }
          else
            { s with uncertainties := s.uncertainties ++ ["Age may not meet requirements"], band := .Low }
        | none =>
          { s with uncertainties := s.uncertainties ++ ["Age may not meet requirements"], band := .Low }
    | some age, none, some hi =>
      if age ≤ hi then
        { s with reasons := s.reasons ++ ["Age meets maximum requirement"] }
      else
        { s with uncertainties := s.uncertainties ++ ["Age may not meet requirements"], band := .Low }
    | _, _, _ => s

/-- `hasGeneticRequirement` keyword check of the legacy agent (lines 49-52). -/
def hasGeneticRequirement (e : String) : Bool :=
  strIncludes e "genetic" || strIncludes e "molecular" ||
  strIncludes e "mutation" || strIncludes e "confirmed diagnosis"

/-- Genetic block of the legacy agent (lines 56-67). -/
def stepGenetic (p : PatientInput) (e : String) (s : AgentState) : AgentState :=
  if hasGeneticRequirement e then
    match p.genotypeKnown with
    | some .yes =>
      let s1 := { s with reasons := s.reasons ++ ["Genetic diagnosis aligns with criteria"] }
      if s1.band = .Medium then { s1 with band := .High } else s1
    | some .unknown =>
      { s with uncertainties := s.uncertainties ++ ["Genetic confirmation likely required"],
               followUpQuestion := some "Do you have a confirmed genetic diagnosis?" }
    | some .no =>
      { s with uncertainties := s.uncertainties ++ ["Genetic diagnosis may be required"],
               band := if s.band = .High then .Medium else .Low }
    | none => s
  else s

/-- `excludesPriorTherapy` keyword check of the legacy agent (lines 69-72). -/
def excludesPriorTherapy (e : String) : Bool :=
  strIncludes e "no prior treatment" || strIncludes e "treatment-naïve" ||
  strIncludes e "treatment naive" || strIncludes e "previous therapy excluded"

/-- Prior-therapy block of the legacy agent (lines 74-86). -/
def stepPrior (p : PatientInput) (e : String) (s : AgentState) : AgentState :=
  if excludesPriorTherapy e then
    match p.priorTherapy with
    | some .yes =>
      { s with reasons := s.reasons ++ ["Prior therapy may be exclusion"],
               band := if s.band = .High then .Medium else .Low }
    | some .unknown =>
      { s with uncertainties := s.uncertainties ++ ["Prior therapy status may affect eligibility"],
               followUpQuestion :=
                 match s.followUpQuestion with
                 | none => some "Have you received any prior disease-specific therapy?"
                 | some q => some q }
    | some .no =>
      { s with reasons := s.reasons ++ ["Treatment-naïve status matches criteria"] }
    | none => s
  else s

/-- All-stages block of the legacy agent (lines 88-90). -/
def stepStages (e : String) (s : AgentState) : AgentState :=
  if strIncludes e "all disease stages" || strIncludes e "all stages" then
    { s with reasons := s.reasons ++ ["Study accepts all disease stages"] }
  else s

/-- Observational-phase block of the legacy agent (lines 92-95). -/
def stepPhase (t : Trial) (s : AgentState) : AgentState :=
  if t.phase = some "Observational" ∨ t.phase = some "Natural History" then
    let s1 := { s with reasons := s.reasons ++ ["Observational study with broad inclusion"] }
    if s1.band = .Medium then { s1 with band := .High } else s1
  else s

/-- Empty-explanation guard and list caps of the legacy agent (lines 97-106). -/
def finalize (s : AgentState) : EligibilityDecision :=
  let unc :=
    if s.reasons = [] ∧ s.uncertainties = [] then
      s.uncertainties ++ ["Limited eligibility information available"]
    else s.uncertainties
  { band := s.band,
    reasons := s.reasons.take 4,
    uncertainties := unc.take 3,
    followUpQuestion := s.followUpQuestion }

/-- State after the age block. -/
def legacyS1 (p : PatientInput) (t : Trial) : AgentState :=
  stepAge p t initialState

/-- State after the genetic block. -/
def legacyS2 (p : PatientInput) (t : Trial) : AgentState :=
  stepGenetic p (eligText t) (legacyS1 p t)

/-- State after the prior-therapy block. -/
def legacyS3 (p : PatientInput) (t : Trial) : AgentState :=
  stepPrior p (eligText t) (legacyS2 p t)

/-- State after the all-stages block. -/
def legacyS4 (p : PatientInput) (t : Trial) : AgentState :=
  stepStages (eligText t) (legacyS3 p t)

/-- State after the observational-phase block (the final state). -/
def legacyS5 (p : PatientInput) (t : Trial) : AgentState :=
  stepPhase t (legacyS4 p t)

/-- `EligibilityAgent` from src/agents/eligibilityAgent.ts (lines 18-107):
the legacy heuristic path, as the composition of its blocks. -/
def EligibilityAgent (p : PatientInput) (t : Trial) : EligibilityDecision :=
  finalize (legacyS5 p t)

/-! ### A small regular-expression engine

The catalog's extractors apply JavaScript regexes with the `i` flag via
`String.prototype.match` (leftmost match, left-biased alternation, greedy
quantifiers, capture groups). The engine below implements exactly these
semantics with a fuel-bounded backtracking matcher; each source regex is
transcribed literally into an `Rx` value. -/

/-- Regular-expression abstract syntax: empty word, single-character class,
concatenation, (left-biased) alternation, greedy Kleene star, and a numbered
capture group. -/
inductive Rx where
  | eps : Rx
  | cls : (Char → Bool) → Rx
  | seq : Rx → Rx → Rx
  | alt : Rx → Rx → Rx
  | star : Rx → Rx
  | grp : Nat → Rx → Rx

/-- `r?` (greedy option). -/
def Rx.opt (r : Rx) : Rx := .alt r .eps

/-- `r+` (greedy plus). -/
def Rx.plus (r : Rx) : Rx := .seq r (.star r)

/-- Node count, used only to budget matcher fuel. -/
def Rx.size : Rx → Nat
  | .eps => 1
  | .cls _ => 1
  | .seq a b => a.size + b.size + 1
  | .alt a b => a.size + b.size + 1
  | .star a => a.size + 1
  | .grp _ a => a.size + 1

/-- A single literal character under the `i` flag (ASCII case folding). -/
def ci (c : Char) : Rx := .cls (fun x => x.toLower == c.toLower)

/-- A literal string under the `i` flag. -/
def rxStr (s : String) : Rx := (s.data.map ci).foldr Rx.seq Rx.eps

/-- Concatenation of a list of regexes. -/
def rxSeqList (l : List Rx) : Rx := l.foldr Rx.seq Rx.eps

/-- `\d`. -/
def digitCls : Rx := .cls Char.isDigit

/-- JS whitespace character (the characters the trial texts exercise). -/
def isJsWs (c : Char) : Bool := c == ' ' || c == '\t' || c == '\n' || c == '\r'

/-- `\s`. -/
def wsCls : Rx := .cls isJsWs

/-- `[-\s]`. -/
def dashOrWsCls : Rx := .cls (fun c => c == '-' || isJsWs c)

/-- Capture environment: group number ↦ captured characters. -/
abbrev Caps := List (Nat × List Char)

/-- Fuel-bounded CPS backtracking matcher. `matchRx fuel r s caps k` tries to
match `r` against a prefix of `s`, extending `caps`, and calls `k` with the
remaining input on success; alternation is left-biased and star is greedy,
matching JS regex backtracking order. -/
def matchRx : Nat → Rx → List Char → Caps →
    (List Char → Caps → Option (List Char × Caps)) → Option (List Char × Caps)
  | 0, _, _, _, _ => none
  | Nat.succ fuel, r, s, caps, k =>
    match r with
    | .eps => k s caps
    | .cls p =>
      match s with
      | [] => none
      | c :: rest => if p c then k rest caps else none
    | .seq a b => matchRx fuel a s caps (fun s1 c1 => matchRx fuel b s1 c1 k)
    | .alt a b =>
      match matchRx fuel a s caps k with
      | some out => some out
      | none => matchRx fuel b s caps k
    | .star a =>
      match matchRx fuel a s caps (fun s1 c1 => matchRx fuel (.star a) s1 c1 k) with
      | some out => some out
      | none => k s caps
    | .grp n a =>
      matchRx fuel a s caps
        (fun s1 c1 => k s1 ((n, s.take (s.length - s1.length)) :: c1))

/-- One successful `String.prototype.match` result: the whole match (`m[0]`)
and the captured groups (`m[i]`). -/
structure RxMatch where
  raw : String
  groups : List (Nat × String)
deriving DecidableEq, Repr

/-- Group lookup `m[n]` (all groups of the transcribed patterns are bound on
success, so the default is never consulted). -/
def RxMatch.group (m : RxMatch) (n : Nat) : String :=
  ((m.groups.find? (fun g => g.1 == n)).map Prod.snd).getD ""

/-- Try to match `r` at the start of `t`. -/
def runAtRx (fuel : Nat) (r : Rx) (t : List Char) : Option (List Char × Caps) :=
  matchRx fuel r t [] (fun rest caps => some (rest, caps))

/-- Package a successful match at the start of `t` into an `RxMatch`. -/
def mkRxMatch (t rest : List Char) (caps : Caps) : RxMatch :=
  { raw := ⟨t.take (t.length - rest.length)⟩,
    groups := caps.map (fun g => (g.1, ⟨g.2⟩)) }

/-- Leftmost search: try each start position from the left. -/
def searchRxAux (fuel : Nat) (r : Rx) : List Char → Option RxMatch
  | [] =>
    match runAtRx fuel r [] with
    | some (rest, caps) => some (mkRxMatch [] rest caps)
    | none => none
  | c :: t2 =>
    match runAtRx fuel r (c :: t2) with
    | some (rest, caps) => some (mkRxMatch (c :: t2) rest caps)
    | none => searchRxAux fuel r t2

/-- `text.match(r)` for a regex without the `g` flag: leftmost match with
captures, or `none`. -/
def jsMatch (r : Rx) (text : String) : Option RxMatch :=
  searchRxAux ((r.size + 1) * (text.data.length + 2) + 8) r text.data

/-- `parseInt` on the (always all-digit, nonempty) captured group strings. -/
def jsParseIntNat (s : String) : ℕ :=
  s.data.foldl (fun acc c => acc * 10 + (c.toNat - '0'.toNat)) 0

/-! ### Clinical data model (types/clinicalProfile.ts) -/

/-- Criterion intent: the TS union `'include' | 'exclude'`. -/
inductive Intent where
  | include
  | exclude
deriving DecidableEq, Repr

/-- Criterion status: the TS union `'hit' | 'miss' | 'unknown'`. -/
inductive CStatus where
  | hit
  | miss
  | unknown
deriving DecidableEq, Repr

/-- The `number | string` values an `ExtractedValue.value` can hold. -/
inductive NumOrStr where
  | num (q : ℚ)
  | str (s : String)
deriving DecidableEq, Repr

/-- Comparison operator of an `ExtractedValue`. -/
inductive CompOp where
  | gt
  | ge
  | lt
  | le
  | eq
  | between
deriving DecidableEq, Repr

/-- `ExtractedValue` from the clinical catalog module. -/
structure ExtractedValue where
  raw : String
  value : Option NumOrStr
  operator : Option CompOp
  unit : Option String
  range : Option (ℚ × ℚ)
deriving DecidableEq, Repr

/-- The values a `CriterionResult.patientValue` (typed `any`) takes in the
catalog's evaluators: a string label or the patient's numeric age. -/
inductive PValue where
  | pstr (s : String)
  | pnum (q : ℚ)
deriving DecidableEq, Repr

/-- `CriterionResult` from types/clinicalProfile.ts. -/
structure CriterionResult where
  intent : Intent
  criterion : String
  status : CStatus
  confidence : ℚ
  extractedValue : Option String
  patientValue : Option PValue
  reason : String
deriving DecidableEq, Repr

/-- `diagnosisCodes` sub-object of `ClinicalPatientProfile`. -/
structure DiagnosisCodes where
  icd10 : Option (List String)
  orpha : Option (List String)
  omim : Option (List String)
deriving DecidableEq, Repr

/-- `ClinicalPatientProfile` from types/clinicalProfile.ts, restricted to the
fields any embedded operation reads (the remaining optional fields of the
source interface are never consulted by the embedded code). -/
structure ClinicalPatientProfile where
  ageYears : Option ℚ
  diagnosis : String
  diagnosisCodes : Option DiagnosisCodes
  gene : Option String
  linesOfTherapy : Option ℚ
  priorTherapy : Option TriState
  genotypeKnown : Option TriState
deriving DecidableEq, Repr

/-- `EnhancedEligibilityDecision` from types/clinicalProfile.ts. -/
structure EnhancedEligibilityDecision where
  band : Band
  score : ℚ
  criteria : List CriterionResult
  reasons : List String
  uncertainties : List String
  followUpQuestion : Option String
  hardFailures : List CriterionResult
deriving DecidableEq, Repr

/-- `CriterionExtractor` rule descriptor from the clinical catalog module. -/
structure CriterionExtractor where
  id : String
  name : String
  intent : Intent
  patterns : List Rx
  extractor : String → Option ExtractedValue
  evaluator : ExtractedValue → ClinicalPatientProfile → CriterionResult
  priority : Int

/-! ### The catalog's regexes, transcribed -/

/-- `years?\s*(?:of\s*age|old)` (shared tail of the age patterns). -/
def rxYearsTail : Rx :=
  rxSeqList [rxStr "year", Rx.opt (ci 's'), Rx.star wsCls,
    Rx.alt (rxSeqList [rxStr "of", Rx.star wsCls, rxStr "age"]) (rxStr "old")]

/-- `/age[s]?\s*(?:between|from)?\s*(\d+)[-\s]*(?:to|and|-)?\s*(\d+)/i`. -/
def rxAgeRange1 : Rx :=
  rxSeqList [rxStr "age", Rx.opt (ci 's'), Rx.star wsCls,
    Rx.opt (Rx.alt (rxStr "between") (rxStr "from")), Rx.star wsCls,
    Rx.grp 1 (Rx.plus digitCls), Rx.star dashOrWsCls,
    Rx.opt (Rx.alt (rxStr "to") (Rx.alt (rxStr "and") (rxStr "-"))),
    Rx.star wsCls, Rx.grp 2 (Rx.plus digitCls)]

/-- `/(\d+)\s*[-–]\s*(\d+)\s*years?\s*(?:of\s*age|old)/i`. -/
def rxAgeRange2 : Rx :=
  rxSeqList [Rx.grp 1 (Rx.plus digitCls), Rx.star wsCls,
    Rx.cls (fun c => c == '-' || c == '–'), Rx.star wsCls,
    Rx.grp 2 (Rx.plus digitCls), Rx.star wsCls, rxYearsTail]

/-- `/(?:≥|>=|at least)\s*(\d+)\s*years?\s*(?:of\s*age|old)/i`. -/
def rxAgeMin : Rx :=
  rxSeqList [Rx.alt (rxStr "≥") (Rx.alt (rxStr ">=") (rxStr "at least")),
    Rx.star wsCls, Rx.grp 1 (Rx.plus digitCls), Rx.star wsCls, rxYearsTail]

/-- `/(?:≤|<=|no more than|maximum)\s*(\d+)\s*years?\s*(?:of\s*age|old)/i`. -/
def rxAgeMax : Rx :=
  rxSeqList [Rx.alt (rxStr "≤")
      (Rx.alt (rxStr "<=") (Rx.alt (rxStr "no more than") (rxStr "maximum"))),
    Rx.star wsCls, Rx.grp 1 (Rx.plus digitCls), Rx.star wsCls, rxYearsTail]

/-- `/genetic(?:ally)?\s*confirmed/i`. -/
def rxGeneticConfirmed : Rx :=
  rxSeqList [rxStr "genetic", Rx.opt (rxStr "ally"), Rx.star wsCls, rxStr "confirmed"]

/-- `/molecular(?:ly)?\s*confirmed/i`. -/
def rxMolecularConfirmed : Rx :=
  rxSeqList [rxStr "molecular", Rx.opt (rxStr "ly"), Rx.star wsCls, rxStr "confirmed"]

/-- `/confirmed\s*(?:genetic\s*)?diagnosis/i`. -/
def rxConfirmedDiagnosis : Rx :=
  rxSeqList [rxStr "confirmed", Rx.star wsCls,
    Rx.opt (rxSeqList [rxStr "genetic", Rx.star wsCls]), rxStr "diagnosis"]

/-- `/(?:genetic|molecular)\s*testing/i` (listed in `patterns` only). -/
def rxGeneticTesting : Rx :=
  rxSeqList [Rx.alt (rxStr "genetic") (rxStr "molecular"), Rx.star wsCls, rxStr "testing"]

/-- `[iï]` under the `i` flag. -/
def iUmlautCls : Rx := .cls (fun c => c.toLower == 'i' || c == 'ï' || c == 'Ï')

/-- `/no\s*prior\s*(?:systemic\s*)?(?:anti-?cancer\s*)?treatment/i`. -/
def rxNoPriorTreatment : Rx :=
  rxSeqList [rxStr "no", Rx.star wsCls, rxStr "prior", Rx.star wsCls,
    Rx.opt (rxSeqList [rxStr "systemic", Rx.star wsCls]),
    Rx.opt (rxSeqList [rxStr "anti", Rx.opt (ci '-'), rxStr "cancer", Rx.star wsCls]),
    rxStr "treatment"]

/-- `/treatment[-\s]na[iï]ve/i`. -/
def rxTreatmentNaive : Rx :=
  rxSeqList [rxStr "treatment", dashOrWsCls, rxStr "na", iUmlautCls, rxStr "ve"]

/-- `/na[iï]ve\s*to\s*(?:systemic\s*)?treatment/i`. -/
def rxNaiveToTreatment : Rx :=
  rxSeqList [rxStr "na", iUmlautCls, rxStr "ve", Rx.star wsCls, rxStr "to", Rx.star wsCls,
    Rx.opt (rxSeqList [rxStr "systemic", Rx.star wsCls]), rxStr "treatment"]

/-- `/no\s*previous\s*therapy/i` (listed in `patterns` only). -/
def rxNoPreviousTherapy : Rx :=
  rxSeqList [rxStr "no", Rx.star wsCls, rxStr "previous", Rx.star wsCls, rxStr "therapy"]

/-! ### The criterion catalog -/

/-- JS truthiness of an optional `number | string` value. -/
def jsTruthyNumOrStr : Option NumOrStr → Bool
  | none => false
  | some (.num q) => !(q == 0)
  | some (.str s) => !(s.data.isEmpty)

/-- `AgeCriterion.extractor`: tries the two range patterns (JS `||`), then
the min-bound pattern, then the max-bound pattern. -/
def ageExtractor (text : String) : Option ExtractedValue :=
  match (jsMatch rxAgeRange1 text).orElse (fun _ => jsMatch rxAgeRange2 text) with
  | some m =>
    some { raw := m.raw, operator := some .between,
           range := some ((jsParseIntNat (m.group 1) : ℚ), (jsParseIntNat (m.group 2) : ℚ)),
           value := none, unit := none }
  | none =>
    match jsMatch rxAgeMin text with
    | some m =>
      some { raw := m.raw, operator := some .ge,
             value := some (.num (jsParseIntNat (m.group 1) : ℚ)),
             range := none, unit := none }
    | none =>
      match jsMatch rxAgeMax text with
      | some m =>
        some { raw := m.raw, operator := some .le,
               value := some (.num (jsParseIntNat (m.group 1) : ℚ)),
               range := none, unit := none }
      | none => none

/-- Display of the patient's age inside the evaluator's reason strings (the
ages the code exercises are integers, which JS prints without a fraction). -/
def qToString (q : ℚ) : String :=
  if q.den = 1 then toString q.num else toString q

/-- The `unknown` result of `AgeCriterion.evaluator` (its
`!patient.ageYears` branch). -/
def ageUnknownResult (extracted : ExtractedValue) : CriterionResult :=
  { intent := .include, criterion := "age", status := .unknown, confidence := 0,
    extractedValue := some extracted.raw, patientValue := some (.pstr "unknown"),
    reason := "Patient age not provided" }

/-- `AgeCriterion.evaluator`. The guard `!patient.ageYears` is JS truthiness:
it fires both when `ageYears` is absent and when it equals `0`. -/
def ageEvaluator (extracted : ExtractedValue) (patient : ClinicalPatientProfile) :
    CriterionResult :=
  match patient.ageYears with
  | none => ageUnknownResult extracted
  | some age =>
    if age = 0 then ageUnknownResult extracted
    else
      let hit : Bool :=
        if extracted.operator = some .between ∧ extracted.range.isSome then
          match extracted.range with
          | some (lo, hi) => decide (lo ≤ age ∧ age ≤ hi)
          | none => false
        else if extracted.operator = some .ge ∧ jsTruthyNumOrStr extracted.value then
          match extracted.value with
          | some (.num v) => decide (v ≤ age)
          | _ => false
        else if extracted.operator = some .le ∧ jsTruthyNumOrStr extracted.value then
          match extracted.value with
          | some (.num v) => decide (age ≤ v)
          | _ => false
        else false
      { intent := .include, criterion := "age",
        status := if hit then .hit else .miss, confidence := 9/10,
        extractedValue := some extracted.raw, patientValue := some (.pnum age),
        reason :=
          if hit then
            "Age " ++ qToString age ++ " meets requirement: " ++ extracted.raw
          else
            "Age " ++ qToString age ++ " does not meet requirement: " ++ extracted.raw }

/-- `AgeCriterion` from the clinical catalog module. -/
def AgeCriterion : CriterionExtractor :=
  { id := "age", name := "Age Requirements", intent := .include,
    patterns := [rxAgeRange1, rxAgeRange2, rxAgeMin, rxAgeMax],
    extractor := ageExtractor, evaluator := ageEvaluator, priority := 10 }

/-- `GeneticCriterion.extractor`: first of the three confirmation patterns
that matches, in declaration order. -/
def geneticExtractor (text : String) : Option ExtractedValue :=
  match jsMatch rxGeneticConfirmed text with
  | some m => some { raw := m.raw, value := some (.str "required"),
                     operator := none, unit := none, range := none }
  | none =>
    match jsMatch rxMolecularConfirmed text with
    | some m => some { raw := m.raw, value := some (.str "required"),
                       operator := none, unit := none, range := none }
    | none =>
      match jsMatch rxConfirmedDiagnosis text with
      | some m => some { raw := m.raw, value := some (.str "required"),
                         operator := none, unit := none, range := none }
      | none => none

/-- `GeneticCriterion.evaluator`. -/
def geneticEvaluator (extracted : ExtractedValue) (patient : ClinicalPatientProfile) :
    CriterionResult :=
  if patient.genotypeKnown = some .yes ∨
      (jsTruthyStr patient.gene ∧ patient.diagnosisCodes.isSome) then
    { intent := .include, criterion := "genetic", status := .hit, confidence := 8/10,
      extractedValue := some extracted.raw, patientValue := some (.pstr "confirmed"),
      reason := "Genetic diagnosis is confirmed" }
  else if patient.genotypeKnown = some .no then
    { intent := .include, criterion := "genetic", status := .miss, confidence := 9/10,
      extractedValue := some extracted.raw, patientValue := some (.pstr "not confirmed"),
      reason := "Genetic confirmation required but not available" }
  else
    { intent := .include, criterion := "genetic", status := .unknown, confidence := 0,
      extractedValue := some extracted.raw, patientValue := some (.pstr "unknown"),
      reason := "Genetic confirmation status unknown" }

/-- `GeneticCriterion` from the clinical catalog module. -/
def GeneticCriterion : CriterionExtractor :=
  { id := "genetic", name := "Genetic Confirmation", intent := .include,
    patterns := [rxGeneticConfirmed, rxMolecularConfirmed, rxConfirmedDiagnosis,
                 rxGeneticTesting],
    extractor := geneticExtractor, evaluator := geneticEvaluator, priority := 9 }

/-- `PriorTherapyExclusionCriterion.extractor`. -/
def priorTherapyExtractor (text : String) : Option ExtractedValue :=
  match jsMatch rxNoPriorTreatment text with
  | some m => some { raw := m.raw, value := some (.str "excluded"),
                     operator := none, unit := none, range := none }
  | none =>
    match jsMatch rxTreatmentNaive text with
    | some m => some { raw := m.raw, value := some (.str "excluded"),
                       operator := none, unit := none, range := none }
    | none =>
      match jsMatch rxNaiveToTreatment text with
      | some m => some { raw := m.raw, value := some (.str "excluded"),
                         operator := none, unit := none, range := none }
      | none => none

/-- `PriorTherapyExclusionCriterion.evaluator`.
`patient.linesOfTherapy && patient.linesOfTherapy > 0` is truthiness
followed by the comparison; `patient.linesOfTherapy === 0` is exact. -/
def priorTherapyEvaluator (extracted : ExtractedValue)
    (patient : ClinicalPatientProfile) : CriterionResult :=
  let hasPriorTherapy : Bool :=
    patient.priorTherapy == some .yes ||
    (match patient.linesOfTherapy with
     | some n => !(n == 0) && decide (0 < n)
     | none => false)
  if hasPriorTherapy then
    { intent := .exclude, criterion := "prior_therapy_exclusion", status := .hit,
      confidence := 8/10, extractedValue := some extracted.raw,
      patientValue := some (.pstr "has prior therapy"),
      reason := "Patient has prior therapy but trial excludes prior treatment" }
  else if patient.priorTherapy = some .no ∨ patient.linesOfTherapy = some 0 then
    { intent := .exclude, criterion := "prior_therapy_exclusion", status := .miss,
      confidence := 9/10, extractedValue := some extracted.raw,
      patientValue := some (.pstr "treatment naive"),
      reason := "Patient is treatment-naive, meets exclusion requirement" }
  else
    { intent := .exclude, criterion := "prior_therapy_exclusion", status := .unknown,
      confidence := 0, extractedValue := some extracted.raw,
      patientValue := some (.pstr "unknown"),
      reason := "Prior therapy status unknown" }

/-- `PriorTherapyExclusionCriterion` from the clinical catalog module. -/
def PriorTherapyExclusionCriterion : CriterionExtractor :=
  { id := "prior_therapy_exclusion", name := "Prior Therapy Exclusion",
    intent := .exclude,
    patterns := [rxNoPriorTreatment, rxTreatmentNaive, rxNaiveToTreatment,
                 rxNoPreviousTherapy],
    extractor := priorTherapyExtractor, evaluator := priorTherapyEvaluator,
    priority := 8 }

/-- `CRITERION_CATALOG`. -/
def CRITERION_CATALOG : List CriterionExtractor :=
  [AgeCriterion, GeneticCriterion, PriorTherapyExclusionCriterion]

/-- The loop body of `getHighestPriorityUnknown`: look the result's
criterion up in the catalog and keep it when its priority strictly exceeds
the best priority seen so far. -/
def ghpuStep (acc : CriterionResult × Int) (r : CriterionResult) :
    CriterionResult × Int :=
  match CRITERION_CATALOG.find? (fun c => c.id == r.criterion) with
  | some c => if c.priority > acc.2 then (r, c.priority) else acc
  | none => acc

/-- `getHighestPriorityUnknown` from the clinical catalog module: among the
`unknown` results, the first one whose catalog priority strictly exceeds all
catalog priorities seen before it (starting from `-1`). -/
def getHighestPriorityUnknown (results : List CriterionResult) :
    Option CriterionResult :=
  let unknowns := results.filter (fun r => r.status == CStatus.unknown)
  match unknowns with
  | [] => none
  | first :: _ => some ((unknowns.foldl ghpuStep (first, (-1 : Int)))).1

/-- The catalog priority of a result's criterion (`-1`, the loop's initial
best, when the criterion id is not in the catalog). -/
def catalogPriority (r : CriterionResult) : Int :=
  ((CRITERION_CATALOG.find? (fun c => c.id == r.criterion)).map
    (fun c => c.priority)).getD (-1)

/-! ### The enhanced agent (src/agents/eligibilityAgent.ts lines 109-156) -/

/-- `convertLegacyPatientInput` (fields the embedding carries; the source
additionally sets empty `performance`, `labs` and `contraindications`). -/
def convertLegacyPatientInput (legacy : PatientInput) : ClinicalPatientProfile :=
  { ageYears := legacy.ageYears, genotypeKnown := legacy.genotypeKnown,
    priorTherapy := legacy.priorTherapy, diagnosis := "Unknown",
    diagnosisCodes := none, gene := none, linesOfTherapy := none }

/-- `SimpleEnhancedEligibilityAgent`: projects the clinical profile to the
legacy fields, runs the legacy agent, and wraps its decision. -/
def SimpleEnhancedEligibilityAgent (patient : ClinicalPatientProfile)
    (trial : Trial) : EnhancedEligibilityDecision :=
  let legacyPatient : PatientInput :=
    { ageYears := patient.ageYears, genotypeKnown := patient.genotypeKnown,
      priorTherapy := patient.priorTherapy }
  let legacyResult := EligibilityAgent legacyPatient trial
  { band := legacyResult.band,
    score := if legacyResult.band = .High then 15
             else if legacyResult.band = .Medium then 10 else 5,
    criteria := [],
    reasons := legacyResult.reasons,
    uncertainties := legacyResult.uncertainties,
    followUpQuestion := legacyResult.followUpQuestion,
    hardFailures := [] }

/-- `EligibilityAgentV2`. The source discriminates legacy input from a full
clinical profile by `'diagnosis' in patient`; the embedding models the
union argument as a sum whose tag is that field-presence check. -/
def EligibilityAgentV2 (patient : PatientInput ⊕ ClinicalPatientProfile)
    (trial : Trial) : EnhancedEligibilityDecision :=
  match patient with
  | .inl legacy => SimpleEnhancedEligibilityAgent (convertLegacyPatientInput legacy) trial
  | .inr clinical => SimpleEnhancedEligibilityAgent clinical trial

/-- What the specification says the structured path computes: every catalog
rule is run against the trial's eligibility text, and each rule whose
extractor matches contributes its evaluated `CriterionResult`. Stated from
the spec's words, for comparison with `EligibilityAgentV2`. -/
def runCatalogSpec (text : String) (patient : ClinicalPatientProfile) :
    List CriterionResult :=
  CRITERION_CATALOG.filterMap
    (fun c => (c.extractor text).map (fun e => c.evaluator e patient))

/-! ### Pattern Mining Engine (corpus-analysis functions)

The analysis functions operate on raw study records fetched from the
registry; the optional-chaining paths
(`t?.protocolSection?.eligibilityModule?.eligibilityCriteria`, …) are
modelled as optional fields of a flat record. Divisions in the source can
produce `NaN` (`0/0`) or `Infinity` (`k/0`), so they land in `JSNum`. -/

/-- A JS number produced by a division that may be by zero. -/
inductive JSNum where
  | nan
  | inf
  | val (q : ℚ)
deriving DecidableEq, Repr

/-- JS division: `0/0 = NaN`, `k/0 = Infinity` (all source numerators are
nonnegative), otherwise the exact quotient. -/
def jsDiv (n d : ℚ) : JSNum :=
  if d = 0 then (if n = 0 then .nan else .inf) else .val (n / d)

/-- `x > c` on a possibly non-finite JS number (`NaN > c` is false,
`Infinity > c` is true for the thresholds used). -/
def JSNum.gtB : JSNum → ℚ → Bool
  | .nan, _ => false
  | .inf, _ => true
  | .val q, c => decide (c < q)

/-- `Math.round` (half away from zero is never exercised at `.5` by the
claims; JS rounds half up, i.e. `⌊x + 1/2⌋`). -/
def jsRound (q : ℚ) : ℤ := ⌊q + 1/2⌋

/-- The `${Math.round(x * 100)}` fragment of the insight descriptions. -/
def JSNum.pct : JSNum → String
  | .nan => "NaN"
  | .inf => "Infinity"
  | .val q => toString (jsRound (q * 100))

/-- One entry of `contactsLocationsModule.locations`. -/
structure LocationRecord where
  country : Option String
deriving DecidableEq, Repr

/-- One entry of `armsInterventionsModule.interventions`. -/
structure InterventionRecord where
  type : Option String
deriving DecidableEq, Repr

/-- A raw registry study record, flattening the optional-chaining paths the
engine reads (`protocolSection.identificationModule.nctId`,
`eligibilityModule.{eligibilityCriteria,minimumAge,maximumAge}`,
`designModule.phases`, `contactsLocationsModule.locations`,
`sponsorCollaboratorsModule.leadSponsor.name`,
`armsInterventionsModule.interventions`). -/
structure StudyRecord where
  nctId : Option String
  eligibilityCriteria : Option String
  minimumAge : Option String
  maximumAge : Option String
  phases : Option (List String)
  locations : Option (List LocationRecord)
  leadSponsorName : Option String
  interventions : Option (List InterventionRecord)
deriving DecidableEq, Repr

/-- Keep an optional string only when it is JS-truthy (`filter(Boolean)`). -/
def truthyFilter (o : Option String) : Option String :=
  if jsTruthyStr o then o else none

/-- `parseAge`: `null` for a falsy input, else `parseInt` of the first digit
run (`/(\d+)/`), `null` when there is none. -/
def parseAge (ageStr : Option String) : Option ℤ :=
  match ageStr with
  | none => none
  | some s =>
    if s.data.isEmpty then none
    else
      match jsMatch (Rx.plus digitCls) s with
      | some m => some (jsParseIntNat m.raw)
      | none => none

/-- Result object of `analyzeAgePatterns` (also stored as the
`agePatterns` field of the emitted `EligibilityPattern`). -/
structure AgeAnalysis where
  frequency : JSNum
  minAge : ℤ
  maxAge : ℤ
  mostCommonRange : ℤ × ℤ
deriving DecidableEq, Repr

/-- `Math.min(...l)` / `Math.max(...l)` over a nonempty list, with the
source's default for the empty case. -/
def listMinD (l : List ℤ) (dflt : ℤ) : ℤ :=
  match l with
  | [] => dflt
  | x :: xs => xs.foldl min x

/-- See `listMinD`. -/
def listMaxD (l : List ℤ) (dflt : ℤ) : ℤ :=
  match l with
  | [] => dflt
  | x :: xs => xs.foldl max x

/-- `findMostCommonAgeRange`: rounded arithmetic means of the fully
specified (min, max) pairs, `[0, 100]` when there are none. -/
def findMostCommonAgeRange (ages : List (Option ℤ × Option ℤ)) : ℤ × ℤ :=
  let validRanges := ages.filterMap
    (fun a => match a with
      | (some lo, some hi) => some (lo, hi)
      | _ => none)
  match validRanges with
  | [] => (0, 100)
  | _ =>
    let avgMin : ℚ := ((validRanges.map (fun a => (a.1 : ℚ))).sum) / validRanges.length
    let avgMax : ℚ := ((validRanges.map (fun a => (a.2 : ℚ))).sum) / validRanges.length
    (jsRound avgMin, jsRound avgMax)

/-- `analyzeAgePatterns`. -/
def analyzeAgePatterns (trials : List StudyRecord) : AgeAnalysis :=
  let ages := (trials.map
      (fun t => (parseAge t.minimumAge, parseAge t.maximumAge))).filter
    (fun a => a.1.isSome || a.2.isSome)
  let minAges := (ages.map Prod.fst).filterMap id
  let maxAges := (ages.map Prod.snd).filterMap id
  { frequency := jsDiv ages.length trials.length,
    minAge := listMinD minAges 0,
    maxAge := listMaxD maxAges 100,
    mostCommonRange := findMostCommonAgeRange ages }

/-- Result object of `analyzeGeneticRequirements`. -/
structure GeneticRequirements where
  required : Bool
  specificMutations : List String
  frequency : JSNum
deriving DecidableEq, Repr

/-- `[...new Set(l)]`: deduplicate preserving first-occurrence order. -/
def dedupFirst (l : List String) : List String :=
  l.foldl (fun acc s => if acc.contains s then acc else acc ++ [s]) []

/-- `/[A-Z]\d+[A-Z]/` (the mutation-token pattern, applied globally). -/
def rxMutation : Rx :=
  rxSeqList [Rx.cls Char.isUpper, Rx.plus digitCls, Rx.cls Char.isUpper]

/-- All non-overlapping leftmost matches (`String.prototype.match` with the
`g` flag), by repeated leftmost search. -/
def jsMatchAllAux (r : Rx) (mfuel : Nat) : Nat → List Char → List String
  | 0, _ => []
  | Nat.succ f, t =>
    match runAtRx mfuel r t with
    | some (rest, _) =>
      let raw := t.take (t.length - rest.length)
      if raw.isEmpty then
        match t with
        | [] => []
        | _ :: t2 => jsMatchAllAux r mfuel f t2
      else String.mk raw :: jsMatchAllAux r mfuel f rest
    | none =>
      match t with
      | [] => []
      | _ :: t2 => jsMatchAllAux r mfuel f t2

/-- See `jsMatchAllAux`. -/
def jsMatchAll (r : Rx) (text : String) : List String :=
  jsMatchAllAux r ((r.size + 1) * (text.data.length + 2) + 8)
    (text.data.length + 1) text.data

/-- The fixed genetic/molecular lexicon of `analyzeGeneticRequirements`. -/
def geneticTerms : List String :=
  ["genetic", "mutation", "variant", "genotype", "molecular", "confirmed diagnosis"]

/-- `analyzeGeneticRequirements`. -/
def analyzeGeneticRequirements (criteria : List String) : GeneticRequirements :=
  let requiredCount := (criteria.filter
    (fun c => geneticTerms.any (fun term => strIncludes (jsToLower c) term))).length
  let specificMutations := criteria.flatMap (fun c => jsMatchAll rxMutation c)
  { required := decide ((criteria.length : ℚ) * (3/10) < (requiredCount : ℚ)),
    specificMutations := dedupFirst specificMutations,
    frequency := jsDiv requiredCount criteria.length }

/-- One entry of the `criteriaPatterns` list. -/
structure CriteriaPatternEntry where
  term : String
  frequency : JSNum
deriving DecidableEq, Repr

/-- The fixed term list of `analyzeCriteriaPatterns`. -/
def commonTerms : List String :=
  ["performance status", "prior therapy", "organ function",
   "laboratory values", "informed consent", "life expectancy"]

/-- `analyzeCriteriaPatterns`. -/
def analyzeCriteriaPatterns (criteria : List String) : List CriteriaPatternEntry :=
  commonTerms.map (fun term =>
    { term := term,
      frequency := jsDiv
        ((criteria.filter (fun c => strIncludes (jsToLower c) term)).length)
        criteria.length })

/-- `EligibilityPattern` output record. -/
structure EligibilityPattern where
  criteriaType : String
  frequency : JSNum
  totalTrials : ℕ
  associatedOutcomes : List String
  geneticRequirements : Option GeneticRequirements
  agePatterns : AgeAnalysis
  criteriaPatterns : Option (List CriteriaPatternEntry)
deriving DecidableEq, Repr

/-- `analyzeEligibilityPatterns`: always emits exactly one aggregate
"Age Requirements" pattern over the corpus. -/
def analyzeEligibilityPatterns (trials : List StudyRecord) :
    List EligibilityPattern :=
  let allCriteria :=
    (trials.map (fun t => t.eligibilityCriteria)).filterMap truthyFilter
  let agePattern := analyzeAgePatterns trials
  let geneticPattern := analyzeGeneticRequirements allCriteria
  let criteriaPatterns := analyzeCriteriaPatterns allCriteria
  [{ criteriaType := "Age Requirements",
     frequency := agePattern.frequency,
     totalTrials := trials.length,
     associatedOutcomes := [],
     agePatterns := agePattern,
     geneticRequirements := some geneticPattern,
     criteriaPatterns := some criteriaPatterns }]

/-- `ResearchInsight.category` union. -/
inductive InsightCategory where
  | trend
  | gap
  | opportunity
  | risk
deriving DecidableEq, Repr

/-- `ResearchInsight` output record. -/
structure ResearchInsight where
  category : InsightCategory
  title : String
  description : String
  evidence : List String
  confidence : ℚ
  actionable : Bool
  recommendation : Option String
deriving DecidableEq, Repr

/-- `analyzeTrialPhases`: flags an early-development field when more than
70% of the listed phases are Phase 1/2. `totalPhases` (the sum of all
per-phase counts) equals the length of the flattened phase list. -/
def analyzeTrialPhases (trials : List StudyRecord) : Option ResearchInsight :=
  let phases := ((trials.map (fun t => t.phases)).filterMap id).flatten
  let phase1Count := phases.count "PHASE1"
  let phase2Count := phases.count "PHASE2"
  let earlyPhasePercent := jsDiv ((phase1Count + phase2Count : ℕ) : ℚ) phases.length
  if earlyPhasePercent.gtB (7/10) then
    some { category := .trend,
           title := "Research Field in Early Development",
           description := earlyPhasePercent.pct ++
             "% of trials are in Phase 1-2, indicating this is an emerging research area with many experimental treatments.",
           evidence := [toString phase1Count ++ " Phase 1 trials",
                        toString phase2Count ++ " Phase 2 trials"],
           confidence := 8/10, actionable := true,
           recommendation := some "Consider early-phase trials for access to cutting-edge treatments, but be aware of higher risks and uncertainty." }
  else none

/-- Occurrence counts keyed in first-occurrence order (the enumeration
order of a JS object built by insertion). -/
def countsByFirstOccurrence (l : List String) : List (String × ℕ) :=
  (dedupFirst l).map (fun k => (k, l.count k))

/-- Stable insertion (descending by count), modelling the stable JS
`sort((a, b) => b - a)` over `Object.entries`. -/
def insertDescByCount (x : String × ℕ) : List (String × ℕ) → List (String × ℕ)
  | [] => [x]
  | y :: ys => if y.2 ≤ x.2 then x :: y :: ys else y :: insertDescByCount x ys

/-- Stable descending sort by count. -/
def sortDescByCount (l : List (String × ℕ)) : List (String × ℕ) :=
  l.foldr insertDescByCount []

/-- `analyzeGeographicPatterns`. -/
def analyzeGeographicPatterns (trials : List StudyRecord) :
    Option ResearchInsight :=
  let countries :=
    (((trials.map (fun t => t.locations.getD [])).flatten).map
      (fun l => l.country)).filterMap truthyFilter
  let sortedCountries := (sortDescByCount (countsByFirstOccurrence countries)).take 3
  match sortedCountries with
  | [] => none
  | _ =>
    some { category := .opportunity,
           title := "Geographic Research Concentration",
           description := "Research is concentrated in " ++
             String.intercalate ", " (sortedCountries.map Prod.fst) ++
             ", which may indicate centers of excellence or funding patterns.",
           evidence := sortedCountries.map
             (fun e => e.1 ++ ": " ++ toString e.2 ++ " trials"),
           confidence := 7/10, actionable := true,
           recommendation := some "Consider trials in these regions for access to leading research programs." }

/-- `analyzeSponsorPatterns`. -/
def analyzeSponsorPatterns (trials : List StudyRecord) :
    Option ResearchInsight :=
  let sponsors :=
    (trials.map (fun t => t.leadSponsorName)).filterMap truthyFilter
  let topSponsors := (sortDescByCount (countsByFirstOccurrence sponsors)).take 5
  let industrySponsors := topSponsors.filter
    (fun e => !(strIncludes (jsToLower e.1) "university") &&
              !(strIncludes (jsToLower e.1) "hospital") &&
              !(strIncludes (jsToLower e.1) "institute"))
  if (topSponsors.length : ℚ) * (3/5) < (industrySponsors.length : ℚ) then
    some { category := .trend,
           title := "High Industry Investment",
           description := (jsDiv industrySponsors.length topSponsors.length).pct ++
             "% of leading sponsors are pharmaceutical companies, indicating strong commercial interest.",
           evidence := industrySponsors.map
             (fun e => e.1 ++ ": " ++ toString e.2 ++ " trials"),
           confidence := 7/10, actionable := true,
           recommendation := some "Strong industry involvement suggests potential for drug approval and commercialization." }
  else none

/-- `identifyResearchInsights`: phase, geography and sponsor insights, in
that order, omitting the ones whose rule does not trigger. -/
def identifyResearchInsights (trials : List StudyRecord) : List ResearchInsight :=
  (analyzeTrialPhases trials).toList ++
  (analyzeGeographicPatterns trials).toList ++
  (analyzeSponsorPatterns trials).toList

/-- `TrialPattern.patternType` union. -/
inductive PatternType where
  | eligibility
  | outcome
  | design
  | geographic
  | temporal
deriving DecidableEq, Repr

/-- `TrialPattern` output record. -/
structure TrialPattern where
  patternType : PatternType
  pattern : String
  confidence : ℚ
  supportingTrials : List String
  insight : String
  recommendation : Option String
deriving DecidableEq, Repr

/-- `findCommonEligibilityPatterns`: triggers when more than half of the
criteria texts mention "genetic" or "molecular" (the divisions happen only
inside the triggered branch, where the criteria list is nonempty). -/
def findCommonEligibilityPatterns (trials : List StudyRecord) :
    Option TrialPattern :=
  let criteria :=
    (trials.map (fun t => t.eligibilityCriteria)).filterMap truthyFilter
  let geneticRequirementCount := (criteria.filter
    (fun c => strIncludes (jsToLower c) "genetic" ||
              strIncludes (jsToLower c) "molecular")).length
  if (criteria.length : ℚ) * (1/2) < (geneticRequirementCount : ℚ) then
    some { patternType := .eligibility,
           pattern := "Genetic confirmation required",
           confidence := (geneticRequirementCount : ℚ) / (criteria.length : ℚ),
           supportingTrials :=
             ((trials.take 10).map (fun t => t.nctId)).filterMap truthyFilter,
           insight := toString (jsRound
               ((geneticRequirementCount : ℚ) / (criteria.length : ℚ) * 100)) ++
             "% of trials require genetic or molecular confirmation of diagnosis.",
           recommendation := some "Ensure genetic testing is completed before applying to trials in this condition." }
  else none

/-- `findDesignPatterns`: triggers when more than 80% of the listed
intervention types are `DRUG`. -/
def findDesignPatterns (trials : List StudyRecord) : Option TrialPattern :=
  let interventionTypes :=
    (((trials.map (fun t => t.interventions.getD [])).flatten).map
      (fun i => i.type)).filterMap truthyFilter
  let drugTrials := (interventionTypes.filter (fun ty => ty == "DRUG")).length
  let totalInterventions := interventionTypes.length
  if (totalInterventions : ℚ) * (4/5) < (drugTrials : ℚ) then
    some { patternType := .design,
           pattern := "Drug-focused research",
           confidence := (drugTrials : ℚ) / (totalInterventions : ℚ),
           supportingTrials :=
             ((trials.take 10).map (fun t => t.nctId)).filterMap truthyFilter,
           insight := toString (jsRound
               ((drugTrials : ℚ) / (totalInterventions : ℚ) * 100)) ++
             "% of interventions are drug-based therapies.",
           recommendation := some "Research is heavily focused on pharmaceutical interventions rather than devices or procedures." }
  else none

/-- `extractCrossTrialPatterns`: the eligibility pattern then the design
pattern, omitting non-triggered ones. -/
def extractCrossTrialPatterns (trials : List StudyRecord) : List TrialPattern :=
  (findCommonEligibilityPatterns trials).toList ++
  (findDesignPatterns trials).toList

/-! ### Concrete inputs used by the scenario claims -/

/-- A clinical profile with every optional field absent. -/
def baseProfile : ClinicalPatientProfile :=
  { ageYears := none, diagnosis := "Condition", diagnosisCodes := none,
    gene := none, linesOfTherapy := none, priorTherapy := none,
    genotypeKnown := none }

/-- The end-to-end scenario trial: age bounds 18–75, text
"treatment-naïve patients only". -/
def trialNaive : Trial :=
  { nctId := "NCT00000001", title := "Example trial", phase := none,
    locations := [], eligibilityText := some "treatment-naïve patients only",
    minAgeYears := some 18, maxAgeYears := some 75, status := none }

/-- The end-to-end scenario patient: age 52, prior therapy "yes". -/
def patientNaive : PatientInput :=
  { ageYears := some 52, genotypeKnown := none, priorTherapy := some .yes }

/-- The scenario trial with an observational phase (for the band-monotonicity
counterexample). -/
def trialNaiveObs : Trial := { trialNaive with phase := some "Observational" }

/-- A patient below the trial's age range (for witnesses of Low-band
absorption). -/
def youngPatient : PatientInput :=
  { ageYears := some 10, genotypeKnown := none, priorTherapy := none }

/-- A trial whose eligibility text is "genetically confirmed". -/
def trialGenetic : Trial :=
  { nctId := "NCT00000002", title := "Genetic study", phase := none,
    locations := [], eligibilityText := some "genetically confirmed",
    minAgeYears := none, maxAgeYears := none, status := none }

/-- The age-scenario trial text. -/
def agesTrialText : String := "Inclusion Criteria: ages 18 to 65 years"

/-- A profile with unknown genotype (for the structured-path counterexample). -/
def unknownGenotypeProfile : ClinicalPatientProfile :=
  { baseProfile with genotypeKnown := some .unknown }

/-- An `unknown` age result (priority-10 rule), for the priority lookup. -/
def unknownAgeResult : CriterionResult :=
  { intent := .include, criterion := "age", status := .unknown, confidence := 0,
    extractedValue := none, patientValue := none,
    reason := "Patient age not provided" }

/-- An `unknown` prior-therapy result (priority-8 rule). -/
def unknownPriorResult : CriterionResult :=
  { intent := .exclude, criterion := "prior_therapy_exclusion",
    status := .unknown, confidence := 0, extractedValue := none,
    patientValue := none, reason := "Prior therapy status unknown" }

/-- A sample extracted age range (for evaluator-only statements). -/
def sampleExtracted : ExtractedValue :=
  { raw := "ages 18 to 65", value := none, operator := some .between,
    unit := none, range := some (18, 65) }

/-- A legacy patient input whose genotype status is "unknown". -/
def unknownGenotypePatient : PatientInput :=
  { ageYears := none, genotypeKnown := some .unknown, priorTherapy := none }

/-! ## Theorems -/

/-! ### Band behaviour of the legacy agent's blocks -/

/-- The all-stages block never changes the band. -/
theorem stepStages_band (e : String) (s : AgentState) :
    (stepStages e s).band = s.band := by
  unfold stepStages; split <;> rfl

/-- The genetic block never raises a Low band. -/
theorem stepGenetic_band_low (p : PatientInput) (e : String) (s : AgentState)
    (h : s.band = .Low) : (stepGenetic p e s).band = .Low := by
  unfold stepGenetic
  split
  · split <;> simp [h]
  · exact h

/-- The prior-therapy block never raises a Low band. -/
theorem stepPrior_band_low (p : PatientInput) (e : String) (s : AgentState)
    (h : s.band = .Low) : (stepPrior p e s).band = .Low := by
  unfold stepPrior
  split
  · split <;> simp [h]
  · exact h

/-- The observational-phase block never raises a Low band. -/
theorem stepPhase_band_low (t : Trial) (s : AgentState)
    (h : s.band = .Low) : (stepPhase t s).band = .Low := by
  unfold stepPhase
  split
  · simp [h]
  · exact h

/-- The prior-therapy block never raises the band at all. -/
theorem stepPrior_band_le (p : PatientInput) (e : String) (s : AgentState) :
    bandLe (stepPrior p e s).band s.band := by
  unfold stepPrior
  split
  · split <;> cases s.band <;> simp [bandLe, Band.toNat]
  · simp [bandLe]

/-- For a trial that is neither observational nor natural-history, the
phase block is the identity. -/
theorem stepPhase_nonobs (t : Trial) (s : AgentState)
    (h : ¬(t.phase = some "Observational" ∨ t.phase = some "Natural History")) :
    stepPhase t s = s := by
  unfold stepPhase
  exact if_neg h

/-- `finalize` never changes the band. -/
theorem finalize_band (s : AgentState) : (finalize s).band = s.band := rfl

/-! ### Claim C3 (band monotonicity after a demotion) -/

/-- C3 counterexample: for the patient (age 52, prior therapy "yes") and the
observational trial (ages 18–75, text "treatment-naïve patients only"), the
prior-therapy block demotes the band from High to Medium, yet the final band
is High again: the observational-phase promotion raises the band above its
value at the time of the demotion, so the claimed monotonicity fails. -/
theorem band_demotion_cex :
    (legacyS2 patientNaive trialNaiveObs).band = Band.High ∧
    (legacyS3 patientNaive trialNaiveObs).band = Band.Medium ∧
    (EligibilityAgent patientNaive trialNaiveObs).band = Band.High ∧
    ¬ bandLe (EligibilityAgent patientNaive trialNaiveObs).band
        (legacyS3 patientNaive trialNaiveObs).band :=
  ⟨by decide, by decide, by decide, by decide⟩

/-- C3 amended: a demotion to Low is permanent (no later block ever raises a
Low band), and for trials whose phase is neither "Observational" nor
"Natural History" no block applied after a demotion raises the band above
its value at the time of that demotion; the sole exception is the
observational/natural-history promotion, which can lift a band that was
demoted to Medium back to High. -/
theorem band_demotion_amended (p : PatientInput) (t : Trial) :
    ((legacyS1 p t).band = .Low → (EligibilityAgent p t).band = .Low) ∧
    ((legacyS2 p t).band = .Low → (EligibilityAgent p t).band = .Low) ∧
    ((legacyS3 p t).band = .Low → (EligibilityAgent p t).band = .Low) ∧
    (¬(t.phase = some "Observational" ∨ t.phase = some "Natural History") →
      (bandLt (legacyS2 p t).band (legacyS1 p t).band →
        bandLe (EligibilityAgent p t).band (legacyS2 p t).band) ∧
      (bandLt (legacyS3 p t).band (legacyS2 p t).band →
        bandLe (EligibilityAgent p t).band (legacyS3 p t).band)) := by
  have hband : (EligibilityAgent p t).band = (legacyS5 p t).band := rfl
  have hs4 : (legacyS4 p t).band = (legacyS3 p t).band := stepStages_band _ _
  have habs3 : (legacyS3 p t).band = .Low → (EligibilityAgent p t).band = .Low := by
    intro h3
    rw [hband]
    exact stepPhase_band_low t _ (hs4.trans h3)
  have habs2 : (legacyS2 p t).band = .Low → (EligibilityAgent p t).band = .Low := by
    intro h2
    exact habs3 (stepPrior_band_low p _ _ h2)
  have habs1 : (legacyS1 p t).band = .Low → (EligibilityAgent p t).band = .Low := by
    intro h1
    exact habs2 (stepGenetic_band_low p _ _ h1)
  refine ⟨habs1, habs2, habs3, ?_⟩
  intro hobs
  have h5 : (EligibilityAgent p t).band = (legacyS3 p t).band := by
    rw [hband]
    show (stepPhase t (legacyS4 p t)).band = _
    rw [stepPhase_nonobs t _ hobs]
    exact hs4
  constructor
  · intro _
    rw [h5]
    exact stepPrior_band_le p _ _
  · intro _
    rw [h5]
    exact Nat.le_refl _

/-- C3 amended, witness: a patient aged 10 against the 18–75 trial is
demoted to Low by the age block, and the final decision is Low. -/
theorem band_demotion_amended_witness :
    (EligibilityAgent youngPatient trialNaive).band = Band.Low :=
  (band_demotion_amended youngPatient trialNaive).1 (by decide)

/-! ### Claim C2 (end-to-end legacy scenario) -/

/-- C2 counterexample: for the trial (ages 18–75, text "treatment-naïve
patients only") and the patient (age 52, prior therapy "yes"), the legacy
agent returns band Medium — not Low — and records no uncertainty at all:
the prior-therapy conflict is recorded as a reason. -/
theorem legacy_scenario_cex :
    (EligibilityAgent patientNaive trialNaive).band = Band.Medium ∧
    (EligibilityAgent patientNaive trialNaive).uncertainties = [] :=
  ⟨by decide, by decide⟩

/-- C2 amended: on the end-to-end scenario input the legacy agent returns
band Medium (the age match promotes Medium to High and the prior-therapy
conflict demotes High back to Medium), with a reason recorded for the age
match and a reason (not an uncertainty) recorded for the prior-therapy
conflict, no uncertainties, and no follow-up question. -/
theorem legacy_scenario_decision :
    EligibilityAgent patientNaive trialNaive =
      { band := .Medium,
        reasons := ["Age within eligibility range", "Prior therapy may be exclusion"],
        uncertainties := [],
        followUpQuestion := none } := by decide

/-! ### Claim C8 (determinism / idempotence) -/

/-- C8: both agents are pure functions of their inputs — re-running either
on identical patient data and trial reproduces the identical decision; the
embedding carries no randomness or clock state. -/
theorem agents_deterministic (p : PatientInput)
    (x : PatientInput ⊕ ClinicalPatientProfile) (t : Trial) :
    EligibilityAgent p t = EligibilityAgent p t ∧
    EligibilityAgentV2 x t = EligibilityAgentV2 x t :=
  ⟨rfl, rfl⟩

/-! ### Claim C1 (structured path and the catalog) -/

/-- C1 counterexample: for the clinical profile with unknown genotype and
the trial whose text is "genetically confirmed", running the catalog as the
spec describes yields one non-silent result (the genetic criterion, status
unknown), but the decision returned by `EligibilityAgentV2` has an empty
criteria list — the structured path never runs the catalog rules. -/
theorem v2_ignores_catalog_cex :
    (EligibilityAgentV2 (Sum.inr unknownGenotypeProfile) trialGenetic).criteria = [] ∧
    (runCatalogSpec (trialGenetic.eligibilityText.getD "") unknownGenotypeProfile).map
      (fun r => (r.criterion, r.status)) = [("genetic", CStatus.unknown)] :=
  ⟨rfl, by decide⟩

/-- C1 amended: `EligibilityAgentV2` does not consult the criterion catalog
at all — for every clinical profile and trial it projects the profile to the
legacy fields, runs the legacy agent, and returns its band, reasons,
uncertainties and follow-up question together with the coarse score mapping
(High 15, Medium 10, Low 5), an empty criteria list and no hard failures. -/
theorem v2_delegates_to_legacy (profile : ClinicalPatientProfile) (trial : Trial) :
    EligibilityAgentV2 (Sum.inr profile) trial =
      { band := (EligibilityAgent
          { ageYears := profile.ageYears, genotypeKnown := profile.genotypeKnown,
            priorTherapy := profile.priorTherapy } trial).band,
        score :=
          if (EligibilityAgent
              { ageYears := profile.ageYears, genotypeKnown := profile.genotypeKnown,
                priorTherapy := profile.priorTherapy } trial).band = .High then 15
          else if (EligibilityAgent
              { ageYears := profile.ageYears, genotypeKnown := profile.genotypeKnown,
                priorTherapy := profile.priorTherapy } trial).band = .Medium then 10
          else 5,
        criteria := [],
        reasons := (EligibilityAgent
          { ageYears := profile.ageYears, genotypeKnown := profile.genotypeKnown,
            priorTherapy := profile.priorTherapy } trial).reasons,
        uncertainties := (EligibilityAgent
          { ageYears := profile.ageYears, genotypeKnown := profile.genotypeKnown,
            priorTherapy := profile.priorTherapy } trial).uncertainties,
        followUpQuestion := (EligibilityAgent
          { ageYears := profile.ageYears, genotypeKnown := profile.genotypeKnown,
            priorTherapy := profile.priorTherapy } trial).followUpQuestion,
        hardFailures := [] } := rfl

/-! ### Claim C4 (age criterion on "ages 18 to 65") -/

/-- C4: on the trial text "Inclusion Criteria: ages 18 to 65 years" the age
criterion (extractor then evaluator) is a hit for a patient aged 40, a miss
for one aged 70, and a hit at both inclusive boundary ages 18 and 65. -/
theorem age_criterion_scenario :
    ((AgeCriterion.extractor agesTrialText).map
      (fun e => (AgeCriterion.evaluator e
        { baseProfile with ageYears := some 40 }).status) = some CStatus.hit) ∧
    ((AgeCriterion.extractor agesTrialText).map
      (fun e => (AgeCriterion.evaluator e
        { baseProfile with ageYears := some 70 }).status) = some CStatus.miss) ∧
    ((AgeCriterion.extractor agesTrialText).map
      (fun e => (AgeCriterion.evaluator e
        { baseProfile with ageYears := some 18 }).status) = some CStatus.hit) ∧
    ((AgeCriterion.extractor agesTrialText).map
      (fun e => (AgeCriterion.evaluator e
        { baseProfile with ageYears := some 65 }).status) = some CStatus.hit) :=
  ⟨by decide, by decide, by decide, by decide⟩

/-! ### Claim C5 (genetic criterion and follow-up) -/

/-- C5: on trial text "genetically confirmed" the genetic criterion is a hit
with confidence 0.8 when the genotype is known ("yes"), a miss when it is
"no", and unknown when it is "unknown"; in the unknown case the legacy
agent's decision carries the genetic-confirmation follow-up question. -/
theorem genetic_criterion_scenario :
    ((GeneticCriterion.extractor "genetically confirmed").map
      (fun e => GeneticCriterion.evaluator e
        { baseProfile with genotypeKnown := some .yes }) =
      some { intent := .include, criterion := "genetic", status := .hit,
             confidence := 8/10, extractedValue := some "genetically confirmed",
             patientValue := some (.pstr "confirmed"),
             reason := "Genetic diagnosis is confirmed" }) ∧
    ((GeneticCriterion.extractor "genetically confirmed").map
      (fun e => (GeneticCriterion.evaluator e
        { baseProfile with genotypeKnown := some .no }).status) =
      some CStatus.miss) ∧
    ((GeneticCriterion.extractor "genetically confirmed").map
      (fun e => (GeneticCriterion.evaluator e
        { baseProfile with genotypeKnown := some .unknown }).status) =
      some CStatus.unknown) ∧
    (EligibilityAgent unknownGenotypePatient trialGenetic).followUpQuestion =
      some "Do you have a confirmed genetic diagnosis?" :=
  ⟨rfl, by decide, by decide, by decide⟩

/-! ### Claim C9 (pattern mining on an empty corpus) -/

/-- C9: on an empty trial corpus the analysis functions return well-formed
outputs (they are total functions): the single emitted eligibility pattern
reports `totalTrials = 0`, and both the research-insight list and the
cross-trial pattern list are empty. -/
theorem pattern_mining_empty_corpus :
    (analyzeEligibilityPatterns []).map (fun pat => pat.totalTrials) = [0] ∧
    identifyResearchInsights [] = [] ∧
    extractCrossTrialPatterns [] = [] := by
  have h1 : analyzeTrialPhases [] = none := by decide
  have h2 : analyzeGeographicPatterns [] = none := by decide
  have h3 : analyzeSponsorPatterns [] = none := by
    norm_num [analyzeSponsorPatterns, countsByFirstOccurrence, dedupFirst,
      sortDescByCount, truthyFilter]
  have h4 : findCommonEligibilityPatterns [] = none := by
    norm_num [findCommonEligibilityPatterns, truthyFilter]
  have h5 : findDesignPatterns [] = none := by
    norm_num [findDesignPatterns, truthyFilter]
  refine ⟨by decide, ?_, ?_⟩
  · show (analyzeTrialPhases []).toList ++ (analyzeGeographicPatterns []).toList ++
      (analyzeSponsorPatterns []).toList = []
    rw [h1, h2, h3]
    rfl
  · show (findCommonEligibilityPatterns []).toList ++ (findDesignPatterns []).toList = []
    rw [h4, h5]
    rfl

/-! ### Claim C7 (explanation-list invariants) -/

/-- The age block appends at most one of its three reason strings and at
most one of its two uncertainty strings. -/
theorem stepAge_shape (p : PatientInput) (t : Trial) (s : AgentState) :
    ∃ dr du, (stepAge p t s).reasons = s.reasons ++ dr ∧
      (stepAge p t s).uncertainties = s.uncertainties ++ du ∧
      dr.Sublist ["Age within eligibility range", "Age meets minimum requirement",
        "Age meets maximum requirement"] ∧
      du.Sublist ["Age outside stated range", "Age may not meet requirements"] := by
  unfold stepAge
  repeat' split
  all_goals first
    | exact ⟨["Age within eligibility range"], [], rfl, by simp, by decide, by decide⟩
    | exact ⟨[], ["Age outside stated range"], by simp, rfl, by decide, by decide⟩
    | exact ⟨["Age meets minimum requirement"], [], rfl, by simp, by decide, by decide⟩
    | exact ⟨["Age meets maximum requirement"], [], rfl, by simp, by decide, by decide⟩
    | exact ⟨[], ["Age may not meet requirements"], by simp, rfl, by decide, by decide⟩
    | exact ⟨[], [], by simp, by simp, by decide, by decide⟩

/-- The genetic block appends at most one reason and at most one of its two
uncertainty strings. -/
theorem stepGenetic_shape (p : PatientInput) (e : String) (s : AgentState) :
    ∃ dr du, (stepGenetic p e s).reasons = s.reasons ++ dr ∧
      (stepGenetic p e s).uncertainties = s.uncertainties ++ du ∧
      dr.Sublist ["Genetic diagnosis aligns with criteria"] ∧
      du.Sublist ["Genetic confirmation likely required",
        "Genetic diagnosis may be required"] := by
  unfold stepGenetic
  repeat' split
  all_goals first
    | ((refine ⟨["Genetic diagnosis aligns with criteria"], [], ?_, ?_, ?_, ?_⟩ <;>
        first
          | decide
          | (by_cases hb : s.band = Band.Medium <;> simp [hb])) <;> done)
    | ((refine ⟨[], ["Genetic confirmation likely required"], ?_, ?_, ?_, ?_⟩ <;>
        first | decide | simp) <;> done)
    | ((refine ⟨[], ["Genetic diagnosis may be required"], ?_, ?_, ?_, ?_⟩ <;>
        first | decide | simp) <;> done)
    | (refine ⟨[], [], ?_, ?_, ?_, ?_⟩ <;> first | decide | simp)

/-- The prior-therapy block appends at most one of its two reason strings
and at most one uncertainty string. -/
theorem stepPrior_shape (p : PatientInput) (e : String) (s : AgentState) :
    ∃ dr du, (stepPrior p e s).reasons = s.reasons ++ dr ∧
      (stepPrior p e s).uncertainties = s.uncertainties ++ du ∧
      dr.Sublist ["Prior therapy may be exclusion",
        "Treatment-naïve status matches criteria"] ∧
      du.Sublist ["Prior therapy status may affect eligibility"] := by
  unfold stepPrior
  repeat' split
  all_goals first
    | exact ⟨["Prior therapy may be exclusion"], [], rfl, by simp, by decide, by decide⟩
    | exact ⟨[], ["Prior therapy status may affect eligibility"], by simp, rfl, by decide, by decide⟩
    | exact ⟨["Treatment-naïve status matches criteria"], [], rfl, by simp, by decide, by decide⟩
    | exact ⟨[], [], by simp, by simp, by decide, by decide⟩

/-- The all-stages block appends at most one reason and never touches the
uncertainties. -/
theorem stepStages_shape (e : String) (s : AgentState) :
    ∃ dr, (stepStages e s).reasons = s.reasons ++ dr ∧
      dr.Sublist ["Study accepts all disease stages"] ∧
      (stepStages e s).uncertainties = s.uncertainties := by
  unfold stepStages
  split
  · exact ⟨["Study accepts all disease stages"], rfl, by decide, rfl⟩
  · exact ⟨[], by simp, by decide, rfl⟩

/-- The observational-phase block appends at most one reason and never
touches the uncertainties. -/
theorem stepPhase_shape (t : Trial) (s : AgentState) :
    ∃ dr, (stepPhase t s).reasons = s.reasons ++ dr ∧
      dr.Sublist ["Observational study with broad inclusion"] ∧
      (stepPhase t s).uncertainties = s.uncertainties := by
  unfold stepPhase
  split
  · exact ⟨["Observational study with broad inclusion"],
      by by_cases hb : s.band = Band.Medium <;> simp [hb], by decide,
      by by_cases hb : s.band = Band.Medium <;> simp [hb]⟩
  · exact ⟨[], by simp, by decide, rfl⟩

/-- The reasons accumulated before truncation are a sublist of the fixed
(duplicate-free) list of the agent's reason strings. -/
theorem legacy_reasons_sublist (p : PatientInput) (t : Trial) :
    (legacyS5 p t).reasons.Sublist
      ((((["Age within eligibility range", "Age meets minimum requirement",
        "Age meets maximum requirement"] ++
        ["Genetic diagnosis aligns with criteria"]) ++
        ["Prior therapy may be exclusion", "Treatment-naïve status matches criteria"]) ++
        ["Study accepts all disease stages"]) ++
        ["Observational study with broad inclusion"]) := by
  obtain ⟨dr1, du1, hr1, hu1, hsr1, hsu1⟩ := stepAge_shape p t initialState
  obtain ⟨dr2, du2, hr2, hu2, hsr2, hsu2⟩ := stepGenetic_shape p (eligText t) (legacyS1 p t)
  obtain ⟨dr3, du3, hr3, hu3, hsr3, hsu3⟩ := stepPrior_shape p (eligText t) (legacyS2 p t)
  obtain ⟨dr4, hr4, hsr4, hu4⟩ := stepStages_shape (eligText t) (legacyS3 p t)
  obtain ⟨dr5, hr5, hsr5, hu5⟩ := stepPhase_shape t (legacyS4 p t)
  have e1 : (legacyS1 p t).reasons = dr1 := by simpa using hr1
  have hr5h : (legacyS5 p t).reasons = (legacyS4 p t).reasons ++ dr5 := hr5
  have hr4h : (legacyS4 p t).reasons = (legacyS3 p t).reasons ++ dr4 := hr4
  have hr3h : (legacyS3 p t).reasons = (legacyS2 p t).reasons ++ dr3 := hr3
  have hr2h : (legacyS2 p t).reasons = (legacyS1 p t).reasons ++ dr2 := hr2
  have hR : (legacyS5 p t).reasons = (((dr1 ++ dr2) ++ dr3) ++ dr4) ++ dr5 := by
    rw [hr5h, hr4h, hr3h, hr2h, e1]
  rw [hR]
  exact (((hsr1.append hsr2).append hsr3).append hsr4).append hsr5

/-- The uncertainties accumulated before the empty-explanation guard are a
sublist of the fixed (duplicate-free) list of the agent's uncertainty
strings. -/
theorem legacy_uncertainties_sublist (p : PatientInput) (t : Trial) :
    (legacyS5 p t).uncertainties.Sublist
      ((["Age outside stated range", "Age may not meet requirements"] ++
        ["Genetic confirmation likely required", "Genetic diagnosis may be required"]) ++
        ["Prior therapy status may affect eligibility"]) := by
  obtain ⟨dr1, du1, hr1, hu1, hsr1, hsu1⟩ := stepAge_shape p t initialState
  obtain ⟨dr2, du2, hr2, hu2, hsr2, hsu2⟩ := stepGenetic_shape p (eligText t) (legacyS1 p t)
  obtain ⟨dr3, du3, hr3, hu3, hsr3, hsu3⟩ := stepPrior_shape p (eligText t) (legacyS2 p t)
  obtain ⟨dr4, hr4, hsr4, hu4⟩ := stepStages_shape (eligText t) (legacyS3 p t)
  obtain ⟨dr5, hr5, hsr5, hu5⟩ := stepPhase_shape t (legacyS4 p t)
  have e1 : (legacyS1 p t).uncertainties = du1 := by simpa using hu1
  have hu5h : (legacyS5 p t).uncertainties = (legacyS4 p t).uncertainties := hu5
  have hu4h : (legacyS4 p t).uncertainties = (legacyS3 p t).uncertainties := hu4
  have hu3h : (legacyS3 p t).uncertainties = (legacyS2 p t).uncertainties ++ du3 := hu3
  have hu2h : (legacyS2 p t).uncertainties = (legacyS1 p t).uncertainties ++ du2 := hu2
  have hU : (legacyS5 p t).uncertainties = (du1 ++ du2) ++ du3 := by
    rw [hu5h, hu4h, hu3h, hu2h, e1]
  rw [hU]
  exact (hsu1.append hsu2).append hsu3

/-- C7: every legacy decision has at most 4 reasons, at most 3
uncertainties, no duplicates within either list, and the two lists are
never both empty (when nothing was recorded, the single generic
"limited eligibility information available" uncertainty is emitted). -/
theorem legacy_decision_explanations (p : PatientInput) (t : Trial) :
    (EligibilityAgent p t).reasons.length ≤ 4 ∧
    (EligibilityAgent p t).uncertainties.length ≤ 3 ∧
    (EligibilityAgent p t).reasons.Nodup ∧
    (EligibilityAgent p t).uncertainties.Nodup ∧
    0 < (EligibilityAgent p t).reasons.length +
        (EligibilityAgent p t).uncertainties.length := by
  have hRsub := legacy_reasons_sublist p t
  have hUsub := legacy_uncertainties_sublist p t
  have hRnodup : (legacyS5 p t).reasons.Nodup := hRsub.nodup (by decide)
  have hfr : (EligibilityAgent p t).reasons = (legacyS5 p t).reasons.take 4 := rfl
  by_cases hc : (legacyS5 p t).reasons = [] ∧ (legacyS5 p t).uncertainties = []
  · have hfu : (EligibilityAgent p t).uncertainties =
        ((legacyS5 p t).uncertainties ++
          ["Limited eligibility information available"]).take 3 := by
      show (finalize (legacyS5 p t)).uncertainties = _
      unfold finalize
      rw [if_pos hc]
    rw [hfr, hfu, hc.1, hc.2]
    refine ⟨by simp, by simp, by simp, by simp, by simp⟩
  · have hfu : (EligibilityAgent p t).uncertainties =
        (legacyS5 p t).uncertainties.take 3 := by
      show (finalize (legacyS5 p t)).uncertainties = _
      unfold finalize
      rw [if_neg hc]
    have hUnodup : (legacyS5 p t).uncertainties.Nodup := hUsub.nodup (by decide)
    refine ⟨?_, ?_, ?_, ?_, ?_⟩
    · rw [hfr, List.length_take]; exact min_le_left _ _
    · rw [hfu, List.length_take]; exact min_le_left _ _
    · rw [hfr]; exact (List.take_sublist _ _).nodup hRnodup
    · rw [hfu]; exact (List.take_sublist _ _).nodup hUnodup
    · rw [hfr, hfu, List.length_take, List.length_take]
      rcases not_and_or.mp hc with hne | hne
      · have := List.length_pos.mpr hne
        omega
      · have := List.length_pos.mpr hne
        omega

/-! ### Claim C6 (priority selection among unknown results) -/

/-- Every catalog priority is nonnegative (so strictly above the loop's
initial best of `-1`). -/
theorem catalog_priority_nonneg : ∀ c ∈ CRITERION_CATALOG, 0 ≤ c.priority := by
  intro c hc
  simp only [CRITERION_CATALOG, List.mem_cons, List.mem_singleton,
    List.not_mem_nil, or_false] at hc
  rcases hc with h | h | h <;> subst h <;> decide

/-- Every catalog priority is at most 10. -/
theorem catalog_priority_le_ten : ∀ c ∈ CRITERION_CATALOG, c.priority ≤ 10 := by
  intro c hc
  simp only [CRITERION_CATALOG, List.mem_cons, List.mem_singleton,
    List.not_mem_nil, or_false] at hc
  rcases hc with h | h | h <;> subst h <;> decide

/-- The age rule is the only catalog rule with priority 10. -/
theorem catalog_priority_ten_id :
    ∀ c ∈ CRITERION_CATALOG, c.priority = 10 → c.id = "age" := by
  intro c hc hp
  simp only [CRITERION_CATALOG, List.mem_cons, List.mem_singleton,
    List.not_mem_nil, or_false] at hc
  rcases hc with h | h | h <;> subst h
  · rfl
  · exact absurd hp (by decide)
  · exact absurd hp (by decide)

/-- Invariant of the `getHighestPriorityUnknown` fold: the output is either
the untouched accumulator, or a list element whose catalog priority equals
the best priority; the best priority never decreases; and it bounds the
catalog priority of every processed element that has a catalog entry. -/
theorem ghpu_fold_invariant (l : List CriterionResult)
    (acc : CriterionResult × Int) :
    (l.foldl ghpuStep acc = acc ∨
      ((l.foldl ghpuStep acc).1 ∈ l ∧
        catalogPriority (l.foldl ghpuStep acc).1 = (l.foldl ghpuStep acc).2)) ∧
    acc.2 ≤ (l.foldl ghpuStep acc).2 ∧
    (∀ r ∈ l, ∀ c, CRITERION_CATALOG.find? (fun x => x.id == r.criterion) = some c →
      c.priority ≤ (l.foldl ghpuStep acc).2) := by
  induction l generalizing acc with
  | nil => simp
  | cons r rest ih =>
    rw [List.foldl_cons]
    rcases hfind : CRITERION_CATALOG.find? (fun x => x.id == r.criterion) with _ | c
    · have hstep : ghpuStep acc r = acc := by unfold ghpuStep; rw [hfind]
      rw [hstep]
      obtain ⟨h1, h2, h3⟩ := ih acc
      refine ⟨?_, h2, ?_⟩
      · rcases h1 with h | ⟨hm, hp⟩
        · exact Or.inl h
        · exact Or.inr ⟨List.mem_cons_of_mem _ hm, hp⟩
      · intro x hx cx hcx
        rcases List.mem_cons.mp hx with rfl | hx2
        · rw [hfind] at hcx
          exact absurd hcx (by simp)
        · exact h3 x hx2 cx hcx
    · have hcp : catalogPriority r = c.priority := by
        unfold catalogPriority
        rw [hfind]
        rfl
      by_cases hgt : c.priority > acc.2
      · have hstep : ghpuStep acc r = (r, c.priority) := by
          unfold ghpuStep
          rw [hfind]
          simp [hgt]
        rw [hstep]
        obtain ⟨h1, h2, h3⟩ := ih (r, c.priority)
        refine ⟨?_, le_trans (le_of_lt hgt) h2, ?_⟩
        · rcases h1 with h | ⟨hm, hp⟩
          · refine Or.inr ⟨?_, ?_⟩
            · rw [h]
              exact List.mem_cons_self _ _
            · rw [h]
              exact hcp
          · exact Or.inr ⟨List.mem_cons_of_mem _ hm, hp⟩
        · intro x hx cx hcx
          rcases List.mem_cons.mp hx with rfl | hx2
          · rw [hfind] at hcx
            cases hcx
            exact h2
          · exact h3 x hx2 cx hcx
      · have hstep : ghpuStep acc r = acc := by
          unfold ghpuStep
          rw [hfind]
          simp [hgt]
        rw [hstep]
        obtain ⟨h1, h2, h3⟩ := ih acc
        refine ⟨?_, h2, ?_⟩
        · rcases h1 with h | ⟨hm, hp⟩
          · exact Or.inl h
          · exact Or.inr ⟨List.mem_cons_of_mem _ hm, hp⟩
        · intro x hx cx hcx
          rcases List.mem_cons.mp hx with rfl | hx2
          · rw [hfind] at hcx
            cases hcx
            exact le_trans (not_lt.mp hgt) h2
          · exact h3 x hx2 cx hcx

/-- The catalog priority of every result is at most 10. -/
theorem catalogPriority_le_ten (r : CriterionResult) : catalogPriority r ≤ 10 := by
  unfold catalogPriority
  rcases hfind : CRITERION_CATALOG.find? (fun x => x.id == r.criterion) with _ | c
  · rw [hfind]
    decide
  · rw [hfind]
    simpa using catalog_priority_le_ten c (List.mem_of_find?_eq_some hfind)

/-- A result whose catalog priority is 10 belongs to the age rule. -/
theorem catalogPriority_ten_criterion (r : CriterionResult)
    (h : catalogPriority r = 10) : r.criterion = "age" := by
  unfold catalogPriority at h
  rcases hfind : CRITERION_CATALOG.find? (fun x => x.id == r.criterion) with _ | c
  · rw [hfind] at h
    exact absurd h (by simp)
  · rw [hfind] at h
    have hc : c.priority = 10 := by simpa using h
    have hid : c.id = "age" :=
      catalog_priority_ten_id c (List.mem_of_find?_eq_some hfind) hc
    have hpred := List.find?_some hfind
    have hidr : c.id = r.criterion := by simpa using hpred
    rw [← hidr, hid]

/-- The catalog priority of a result for the age rule is 10. -/
theorem catalogPriority_age (u : CriterionResult) (h : u.criterion = "age") :
    catalogPriority u = 10 := by
  unfold catalogPriority
  rw [h]
  rfl

/-- C6: when every `unknown` result's criterion id is in the catalog,
`getHighestPriorityUnknown` returns `none` exactly when no result is
`unknown`; otherwise it returns an `unknown` result from the list whose
catalog priority is maximal among all `unknown` results — in particular,
whenever an `unknown` result of the priority-10 age rule is present
(e.g. alongside one of the priority-8 prior-therapy rule), the returned
result belongs to the age rule. -/
theorem getHighestPriorityUnknown_correct (results : List CriterionResult)
    (hcat : ∀ r ∈ results, r.status = CStatus.unknown →
      (CRITERION_CATALOG.find? (fun x => x.id == r.criterion)).isSome = true) :
    ((∀ r ∈ results, r.status ≠ CStatus.unknown) →
      getHighestPriorityUnknown results = none) ∧
    (∀ u ∈ results, u.status = CStatus.unknown →
      ∃ r, getHighestPriorityUnknown results = some r ∧ r ∈ results ∧
        r.status = CStatus.unknown ∧ catalogPriority u ≤ catalogPriority r) ∧
    (∀ u ∈ results, u.status = CStatus.unknown → u.criterion = "age" →
      ∃ r, getHighestPriorityUnknown results = some r ∧ r.criterion = "age") := by
  have hmain : ∀ u ∈ results, u.status = CStatus.unknown →
      ∃ r, getHighestPriorityUnknown results = some r ∧ r ∈ results ∧
        r.status = CStatus.unknown ∧ catalogPriority u ≤ catalogPriority r := by
    intro u hu hust
    have humem : u ∈ results.filter (fun x => x.status == CStatus.unknown) :=
      List.mem_filter.mpr ⟨hu, by simp [hust]⟩
    rcases hflt : results.filter (fun x => x.status == CStatus.unknown) with _ | ⟨first, rest⟩
    · rw [hflt] at humem
      exact absurd humem (List.not_mem_nil u)
    · have hout : getHighestPriorityUnknown results =
          some (((first :: rest).foldl ghpuStep (first, (-1 : Int)))).1 := by
        unfold getHighestPriorityUnknown
        rw [hflt]
      obtain ⟨h1, h2, h3⟩ := ghpu_fold_invariant (first :: rest) (first, (-1 : Int))
      have hfirstmem : first ∈ results ∧ first.status = CStatus.unknown := by
        have : first ∈ results.filter (fun x => x.status == CStatus.unknown) := by
          rw [hflt]
          exact List.mem_cons_self _ _
        have h := List.mem_filter.mp this
        exact ⟨h.1, by simpa using h.2⟩
      obtain ⟨cf, hcf⟩ := Option.isSome_iff_exists.mp
        (hcat first hfirstmem.1 hfirstmem.2)
      have hposf : 0 ≤ cf.priority :=
        catalog_priority_nonneg cf (List.mem_of_find?_eq_some hcf)
      have hboundf : cf.priority ≤ ((first :: rest).foldl ghpuStep (first, (-1 : Int))).2 :=
        h3 first (List.mem_cons_self _ _) cf hcf
      have hsnd_pos : (0 : Int) ≤ ((first :: rest).foldl ghpuStep (first, (-1 : Int))).2 :=
        le_trans hposf hboundf
      rcases h1 with heq | ⟨hmem, hpri⟩
      · have : ((first :: rest).foldl ghpuStep (first, (-1 : Int))).2 = -1 := by
          rw [heq]
        omega
      · refine ⟨((first :: rest).foldl ghpuStep (first, (-1 : Int))).1, hout, ?_, ?_, ?_⟩
        · have : ((first :: rest).foldl ghpuStep (first, (-1 : Int))).1 ∈
              results.filter (fun x => x.status == CStatus.unknown) := by
            rw [hflt]
            exact hmem
          exact (List.mem_filter.mp this).1
        · have : ((first :: rest).foldl ghpuStep (first, (-1 : Int))).1 ∈
              results.filter (fun x => x.status == CStatus.unknown) := by
            rw [hflt]
            exact hmem
          have h := (List.mem_filter.mp this).2
          simpa using h
        · obtain ⟨cu, hcu⟩ := Option.isSome_iff_exists.mp (hcat u hu hust)
          have hcup : catalogPriority u = cu.priority := by
            unfold catalogPriority
            rw [hcu]
            rfl
          have humem2 : u ∈ first :: rest := by
            rw [hflt] at humem
            exact humem
          have hboundu : cu.priority ≤
              ((first :: rest).foldl ghpuStep (first, (-1 : Int))).2 :=
            h3 u humem2 cu hcu
          rw [hcup, hpri]
          exact hboundu
  refine ⟨?_, hmain, ?_⟩
  · intro hall
    have hflt : results.filter (fun x => x.status == CStatus.unknown) = [] := by
      apply List.filter_eq_nil_iff.mpr
      intro a ha
      simp [hall a ha]
    unfold getHighestPriorityUnknown
    rw [hflt]
  · intro u hu hust hage
    obtain ⟨r, hret, _, _, hle⟩ := hmain u hu hust
    refine ⟨r, hret, ?_⟩
    apply catalogPriority_ten_criterion
    have h10 : catalogPriority u = 10 := catalogPriority_age u hage
    have hle10 : catalogPriority r ≤ 10 := catalogPriority_le_ten r
    omega

/-- C6 witness: on the two-element list holding an `unknown` prior-therapy
result (priority 8) and an `unknown` age result (priority 10), the selection
returns the result of the age rule. -/
theorem getHighestPriorityUnknown_correct_witness :
    ∃ r, getHighestPriorityUnknown [unknownPriorResult, unknownAgeResult] = some r ∧
      r.criterion = "age" :=
  (getHighestPriorityUnknown_correct [unknownPriorResult, unknownAgeResult]
      (by decide)).2.2
    unknownAgeResult (by decide) (by decide) rfl

/-! ### Claim C10 (age zero treated as missing) -/

/-- C10: for every extracted value and every patient profile whose
`ageYears` is the present value 0, the catalog age evaluator returns the
same `unknown` result (confidence 0, reason "Patient age not provided") it
returns when the age is absent: the JS falsy-value guard does not
distinguish age 0 from an unset age. -/
theorem age_evaluator_zero_age (e : ExtractedValue) (p : ClinicalPatientProfile)
    (h : p.ageYears = some 0) :
    AgeCriterion.evaluator e p = ageUnknownResult e ∧
    AgeCriterion.evaluator e p =
      AgeCriterion.evaluator e { p with ageYears := none } ∧
    (AgeCriterion.evaluator e p).status = CStatus.unknown ∧
    (AgeCriterion.evaluator e p).confidence = 0 ∧
    (AgeCriterion.evaluator e p).reason = "Patient age not provided" := by
  have h0 : AgeCriterion.evaluator e p = ageUnknownResult e := by
    show ageEvaluator e p = _
    unfold ageEvaluator
    rw [h]
    simp
  have h1 : AgeCriterion.evaluator e { p with ageYears := none } =
      ageUnknownResult e := rfl
  exact ⟨h0, h0.trans h1.symm, by rw [h0]; rfl, by rw [h0]; rfl, by rw [h0]; rfl⟩

/-- C10 witness: the concrete profile with `ageYears = 0` evaluated against
the extracted range "ages 18 to 65" yields the `unknown` result. -/
theorem age_evaluator_zero_age_witness :
    ({ baseProfile with ageYears := some 0 } : ClinicalPatientProfile).ageYears =
      some 0 ∧
    (AgeCriterion.evaluator sampleExtracted
      { baseProfile with ageYears := some 0 }).status = CStatus.unknown :=
  ⟨rfl, (age_evaluator_zero_age sampleExtracted
    { baseProfile with ageYears := some 0 } rfl).2.2.1⟩
end Kunbez
